import Mathlib

/-!
Shallow embedding of the timer microservice (Go) core:
the timer data model (`internal/types`), the tick engine and command
surface (`TimerService` in the service package), the Redis snapshot
cache (`persistTimer` / `StopTimer` / `RestoreTimers`), and the
WebSocket connection registry and broadcaster (the websocket handler).

Conventions of the embedding:
* Go `int64` fields are modelled as `Int` (no operation here can
  overflow: the tick decrements only positive values, and create/modify
  assign caller-supplied values directly).
* Go `uint` ids are modelled as `Nat`.
* The durable store (GORM repository) is a list of timer rows;
  `Save` upserts by primary key, `Delete` removes by primary key.
* The Redis cache is an association list keyed by string; `SET`
  replaces the value under a key, `DEL` removes it.  JSON
  marshalling of a `Timer` is modelled as the identity (marshalling a
  timer never fails, and unmarshalling a marshalled timer returns it),
  so cache values are `Timer`s.
* Fallible external calls (store create/update/delete, cache get,
  JSON unmarshal of foreign bytes) are modelled by boolean / `Except`
  parameters supplied by the environment.
* The Go channel `stopChan` is modelled by a two-state lifecycle;
  Go's `close` on an already-closed channel panics at runtime, which
  the model renders as `Except.error`.
* The websocket connection map `map[string]*websocket.Conn` is a list
  of entries with (per the Go map) one slot per `sessionID` key;
  assignment to an existing key replaces the slot.  Each live
  connection's handler also carries an `isGameMaster` flag (role),
  which the map itself does not store; entries in the model carry the
  role of the connection's handler task so that role-dependent
  specification statements can be expressed.
-/

namespace TimerMS

/-- Go struct `types.Timer`: `ID uint`, `SessionID string`, `MaxTime int64`,
`CurrentTime int64`, `IsPaused bool`. -/
structure Timer where
  id : Nat
  sessionID : String
  maxTime : Int
  currentTime : Int
  isPaused : Bool
deriving DecidableEq, Repr

/-! ## Durable store (GORM repository over MySQL) -/

/-- Repository `FindByID`: `db.First(&timer, id)` — point lookup by primary key. -/
def findByID (db : List Timer) (id : Nat) : Option Timer :=
  db.find? (fun t => t.id = id)

/-- Repository `Update`: `db.Save(timer)` — upsert by primary key: replace the row
with this id, or append when absent. -/
def storeSave (db : List Timer) (t : Timer) : List Timer :=
  if db.any (fun u => u.id = t.id) then
    db.map (fun u => if u.id = t.id then t else u)
  else db ++ [t]

/-- Repository `Delete`: `db.Delete(&types.Timer{}, id)` — remove the row with this
primary key. -/
def storeDeleteRow (db : List Timer) (id : Nat) : List Timer :=
  db.filter (fun t => t.id ≠ id)

/-- Store-assigned auto-increment primary key for `Create`. -/
def freshId (db : List Timer) : Nat :=
  db.foldr (fun t m => max t.id m) 0 + 1

/-! ## Redis snapshot cache -/

/-- Redis keyspace: key ↦ cached timer snapshot (JSON modelled as the
timer itself). -/
abbrev Cache := List (String × Timer)

/-- Redis `SET key value`: replace any existing value under the key. -/
def cacheSet (c : Cache) (k : String) (v : Timer) : Cache :=
  (k, v) :: c.filter (fun e => e.1 ≠ k)

/-- Redis `DEL key`. -/
def cacheDel (c : Cache) (k : String) : Cache :=
  c.filter (fun e => e.1 ≠ k)

/-- Redis `GET key`. -/
def cacheGet (c : Cache) (k : String) : Option Timer :=
  (c.find? (fun e => e.1 = k)).map (·.2)

/-- The write path's cache key: `"timer:" + timer.SessionID`
(`persistTimer`). -/
def persistKey (t : Timer) : String := "timer:" ++ t.sessionID

/-- The stop path's cache key: `"timer:" + fmt.Sprint(id)`
(`StopTimer`) — derived from the numeric id, not the session id. -/
def stopDelKey (id : Nat) : String := "timer:" ++ toString id

/-- Service `persistTimer`: marshal the timer and `SET` it under
`"timer:" + SessionID` with a 24h expiry (expiry not modelled). -/
def persistTimer (c : Cache) (t : Timer) : Cache :=
  cacheSet c (persistKey t) t

/-! ## Effects emitted by the tick engine -/

/-- Observable side effects of one `updateTimers` pass, in program
order. -/
inductive Effect where
  | storeUpd (t : Timer)
  | storeUpdFail (t : Timer)
  | cacheSetE (k : String)
  | bcastUpdate (t : Timer)
deriving DecidableEq, Repr

/-- The per-timer body of `updateTimers`, success path:
`timer.CurrentTime--` guarded by `!timer.IsPaused && timer.CurrentTime > 0`. -/
def tickOne (t : Timer) : Timer :=
  if ¬ t.isPaused ∧ 0 < t.currentTime then
    { t with currentTime := t.currentTime - 1 }
  else t

/-- Service `updateTimers`: iterate the active timers; for each unpaused timer
with positive `CurrentTime`, decrement, `repo.Update` it (on failure
log and `continue`, leaving the stored row unchanged), then broadcast
the update.  `updOk` models per-row success of `repo.Update`.  Returns
the resulting store rows and the emitted effect trace. -/
def updateTimers (updOk : Timer → Bool) : List Timer → List Timer × List Effect
  | [] => ([], [])
  | t :: ts =>
    let rest := updateTimers updOk ts
    if ¬ t.isPaused ∧ 0 < t.currentTime then
      let t' := { t with currentTime := t.currentTime - 1 }
      if updOk t' then
        (t' :: rest.1, Effect.storeUpd t' :: Effect.bcastUpdate t' :: rest.2)
      else
        (t :: rest.1, Effect.storeUpdFail t' :: rest.2)
    else
      (t :: rest.1, rest.2)

/-! ## Tick-engine stop signal -/

/-- Lifecycle of the Go channel `stopChan`. -/
inductive ChanState where
  | opened
  | closed
deriving DecidableEq, Repr

/-- Go `close(ch)`: closing an open channel succeeds; closing an
already-closed channel panics at runtime (modelled as `Except.error`). -/
def closeChan : ChanState → Except Unit ChanState
  | .opened => .ok .closed
  | .closed => .error ()

/-- Service `StopTimerUpdates`: `close(s.stopChan)`. -/
def StopTimerUpdates (st : ChanState) : Except Unit ChanState :=
  closeChan st

/-! ## WebSocket connection registry and broadcaster -/

/-- Role of a connection's handler task: customer endpoints register
with `isGameMaster = false` (owner), game-master endpoints with
`isGameMaster = true` (supervisor). -/
inductive Role where
  | owner
  | supervisor
deriving DecidableEq, Repr

/-- One live connection: the `sessionID` under which it is keyed in
`h.connections`, the role of its handler task, and a handle. -/
structure Entry where
  sessionID : String
  role : Role
  conn : Nat
deriving DecidableEq, Repr

/-- The connection registry `connections map[string]*websocket.Conn`,
listed in iteration order; a Go map holds at most one connection per
`sessionID` key. -/
abbrev Registry := List Entry

/-- Handler `handleWebSocket` registration: `h.connections[sessionID] = conn` —
Go map assignment into the single slot for that key: it replaces an
existing entry under the same `sessionID`, otherwise adds a new one. -/
def registerConn (reg : Registry) (e : Entry) : Registry :=
  if reg.any (fun x => x.sessionID = e.sessionID) then
    reg.map (fun x => if x.sessionID = e.sessionID then e else x)
  else reg ++ [e]

/-- Handler `closeConnection`: `delete(h.connections, sessionID)`. -/
def unregisterConn (reg : Registry) (sessionID : String) : Registry :=
  reg.filter (fun x => x.sessionID ≠ sessionID)

/-- Handler `broadcastMessage(message, sessionID, isGameMaster)`: iterate the
connection map and write to every connection with
`isGameMaster || connSessionID == sessionID`, where `isGameMaster` is
the flag of the caller that triggered the broadcast.  Returns the
connection handles the message is delivered to, in iteration order. -/
def broadcastMessage (reg : Registry) (sessionID : String) (isGameMaster : Bool) : List Nat :=
  (reg.filter (fun e => isGameMaster || e.sessionID == sessionID)).map (·.conn)

/-- Handler `broadcastTimerUpdate(timer, isGameMaster)`: serialize the timer
into a `TIMER_UPDATE` message and fan it out via `broadcastMessage`
with the timer's `SessionID`. -/
def broadcastTimerUpdate (reg : Registry) (t : Timer) (isGameMaster : Bool) : List Nat :=
  broadcastMessage reg t.sessionID isGameMaster

/-- Handler `broadcastTimerStop(timerID, isGameMaster)`: serialize `{id}` into
a `TIMER_STOP` message and fan it out via
`broadcastMessage(message, "", isGameMaster)`. -/
def broadcastTimerStop (reg : Registry) (timerID : Nat) (isGameMaster : Bool) : List Nat :=
  broadcastMessage reg "" isGameMaster

/-- Handler `BroadcastTimerUpdate(timer)`: the entry point used by the tick
engine; calls `broadcastTimerUpdate(timer, true)`. -/
def BroadcastTimerUpdate (reg : Registry) (t : Timer) : List Nat :=
  broadcastTimerUpdate reg t true

/-! ## Command surface (`TimerService`) -/

/-- Service `CreateTimer(sessionID, maxTime)`: build the timer with
`CurrentTime = MaxTime`, `IsPaused = false`, `repo.Create` it
(store-assigned id; on failure return the error), then `persistTimer`
it to the cache.  `createOk` models success of `repo.Create`. -/
def CreateTimer (createOk : Bool) (db : List Timer) (cache : Cache)
    (sessionID : String) (maxTime : Int) :
    (List Timer × Cache) × Except Unit Timer :=
  let t : Timer :=
    { id := freshId db, sessionID := sessionID, maxTime := maxTime
      currentTime := maxTime, isPaused := false }
  if createOk then ((db ++ [t], persistTimer cache t), .ok t)
  else ((db, cache), .error ())

/-- Service `PauseTimer(id)`: `FindByID`, set `IsPaused = true`, `repo.Update`,
`persistTimer`.  `updOk` models success of `repo.Update`. -/
def PauseTimer (updOk : Bool) (db : List Timer) (cache : Cache) (id : Nat) :
    (List Timer × Cache) × Except Unit Timer :=
  match findByID db id with
  | none => ((db, cache), .error ())
  | some t =>
    let t' := { t with isPaused := true }
    if updOk then ((storeSave db t', persistTimer cache t'), .ok t')
    else ((db, cache), .error ())

/-- Service `ResumeTimer(id)`: `FindByID`, set `IsPaused = false`,
`repo.Update`, `persistTimer`. -/
def ResumeTimer (updOk : Bool) (db : List Timer) (cache : Cache) (id : Nat) :
    (List Timer × Cache) × Except Unit Timer :=
  match findByID db id with
  | none => ((db, cache), .error ())
  | some t =>
    let t' := { t with isPaused := false }
    if updOk then ((storeSave db t', persistTimer cache t'), .ok t')
    else ((db, cache), .error ())

/-- Service `ModifyTimer(id, newMaxTime)`: `FindByID`, set both `MaxTime` and
`CurrentTime` to `newMaxTime`, `repo.Update`, `persistTimer`. -/
def ModifyTimer (updOk : Bool) (db : List Timer) (cache : Cache)
    (id : Nat) (newMaxTime : Int) :
    (List Timer × Cache) × Except Unit Timer :=
  match findByID db id with
  | none => ((db, cache), .error ())
  | some t =>
    let t' := { t with maxTime := newMaxTime, currentTime := newMaxTime }
    if updOk then ((storeSave db t', persistTimer cache t'), .ok t')
    else ((db, cache), .error ())

/-- Service `StopTimer(id)`: `repo.Delete(id)` (on failure return the error),
then `redis.Del` of `"timer:" + fmt.Sprint(id)`.  Note the stop path
never loads the timer and never touches the `SessionID`-derived key. -/
def StopTimer (delOk : Bool) (db : List Timer) (cache : Cache) (id : Nat) :
    (List Timer × Cache) × Except Unit Unit :=
  if delOk then ((storeDeleteRow db id, cacheDel cache (stopDelKey id)), .ok ())
  else ((db, cache), .error ())

/-! ## Restore procedure -/

/-- The per-key body of the `RestoreTimers` loop: `redis.Get` the key
(`get`, failure → log and continue), `json.Unmarshal` the value
(`unmarshal`, failure → log and continue), `repo.Update` the recovered
timer (`updOk`, failure → log and continue). -/
def restoreOne (get : String → Except Unit String)
    (unmarshal : String → Except Unit Timer) (updOk : Timer → Bool)
    (db : List Timer) (k : String) : List Timer :=
  match get k with
  | .error _ => db
  | .ok s =>
    match unmarshal s with
    | .error _ => db
    | .ok t => if updOk t then storeSave db t else db

/-- Service `RestoreTimers` after the `KEYS "timer:*"` scan succeeded with
`keys`: process every key in order via `restoreOne` and return `nil`.
Returns the resulting store rows, the keys attempted in order, and the
procedure's result. -/
def RestoreTimers (get : String → Except Unit String)
    (unmarshal : String → Except Unit Timer) (updOk : Timer → Bool)
    (db : List Timer) : List String → (List Timer × List String) × Except Unit Unit
  | [] => ((db, []), .ok ())
  | k :: ks =>
    let rest := RestoreTimers get unmarshal updOk (restoreOne get unmarshal updOk db k) ks
    ((rest.1.1, k :: rest.1.2), rest.2)

/-- A concrete cache-fetch environment for exercising `RestoreTimers`:
every key yields itself except `"timer:bad"`, which fails. -/
def restoreGetW : String → Except Unit String :=
  fun s => if s = "timer:bad" then Except.error () else Except.ok s

/-- A concrete deserializer environment for exercising `RestoreTimers`:
every value parses to a fixed timer. -/
def restoreUnmarshalW : String → Except Unit Timer :=
  fun _ => Except.ok (Timer.mk 4 "s4" 9 9 false)

/-! ## Invariant -/

/-- The spec's data-model invariant `0 ≤ currentTime ≤ maxTime`. -/
def timerInv (t : Timer) : Prop :=
  0 ≤ t.currentTime ∧ t.currentTime ≤ t.maxTime

instance (t : Timer) : Decidable (timerInv t) := by
  unfold timerInv; infer_instance

/-- The invariant over every row of the durable store. -/
def dbInv (db : List Timer) : Prop := ∀ t ∈ db, timerInv t

instance (db : List Timer) : Decidable (dbInv db) := by
  unfold dbInv; infer_instance

/-! ## General lemmas about the tick pass -/

theorem updateTimers_cons (u : Timer → Bool) (t : Timer) (ts : List Timer) :
    updateTimers u (t :: ts)
      = if ¬ t.isPaused ∧ 0 < t.currentTime then
          (if u { t with currentTime := t.currentTime - 1 } then
            ({ t with currentTime := t.currentTime - 1 } :: (updateTimers u ts).1,
             Effect.storeUpd { t with currentTime := t.currentTime - 1 } ::
               Effect.bcastUpdate { t with currentTime := t.currentTime - 1 } ::
                 (updateTimers u ts).2)
          else
            (t :: (updateTimers u ts).1,
             Effect.storeUpdFail { t with currentTime := t.currentTime - 1 } ::
               (updateTimers u ts).2))
        else (t :: (updateTimers u ts).1, (updateTimers u ts).2) := rfl

theorem updateTimers_fst_all_ok (ts : List Timer) :
    (updateTimers (fun _ => true) ts).1 = ts.map tickOne := by
  induction ts with
  | nil => rfl
  | cons t ts ih =>
    by_cases h : ¬ t.isPaused ∧ 0 < t.currentTime
    · rw [updateTimers_cons, if_pos h,
        if_pos (show (fun _ : Timer => true)
          { t with currentTime := t.currentTime - 1 } = true from rfl)]
      show { t with currentTime := t.currentTime - 1 }
          :: (updateTimers (fun _ => true) ts).1 = _
      rw [List.map_cons, ih]
      congr 1
      unfold tickOne
      rw [if_pos h]
    · rw [updateTimers_cons, if_neg h]
      show t :: (updateTimers (fun _ => true) ts).1 = _
      rw [List.map_cons, ih]
      congr 1
      unfold tickOne
      rw [if_neg h]

theorem updateTimers_mem (u : Timer → Bool) (ts : List Timer) :
    ∀ t' ∈ (updateTimers u ts).1, ∃ t ∈ ts,
      t' = t ∨ (0 < t.currentTime ∧ t' = { t with currentTime := t.currentTime - 1 }) := by
  induction ts with
  | nil => intro t' h; simp [updateTimers] at h
  | cons t ts ih =>
    intro t' h
    rw [updateTimers_cons] at h
    by_cases hc : ¬ t.isPaused ∧ 0 < t.currentTime
    · rw [if_pos hc] at h
      by_cases hu : u { t with currentTime := t.currentTime - 1 } = true
      · rw [if_pos hu] at h
        rcases List.mem_cons.mp h with h | h
        · exact ⟨t, List.mem_cons_self t ts, Or.inr ⟨hc.2, h⟩⟩
        · obtain ⟨a, ha, hp⟩ := ih t' h
          exact ⟨a, List.mem_cons_of_mem t ha, hp⟩
      · rw [if_neg hu] at h
        rcases List.mem_cons.mp h with h | h
        · exact ⟨t, List.mem_cons_self t ts, Or.inl h⟩
        · obtain ⟨a, ha, hp⟩ := ih t' h
          exact ⟨a, List.mem_cons_of_mem t ha, hp⟩
    · rw [if_neg hc] at h
      rcases List.mem_cons.mp h with h | h
      · exact ⟨t, List.mem_cons_self t ts, Or.inl h⟩
      · obtain ⟨a, ha, hp⟩ := ih t' h
        exact ⟨a, List.mem_cons_of_mem t ha, hp⟩

theorem zip_map_snd {α β : Type _} (f : α → β) (l : List α) :
    ∀ p ∈ l.zip (l.map f), p.2 = f p.1 := by
  induction l with
  | nil => intro p hp; simp at hp
  | cons a l ih =>
    intro p hp
    rw [List.map_cons, List.zip_cons_cons, List.mem_cons] at hp
    rcases hp with rfl | hp
    · rfl
    · exact ih p hp

/-! ## Claim C1 -/

/-- C1: one invocation of the tick step (`updateTimers`), with every
store update succeeding, pairs each active timer with its result:
an unpaused timer with `currentTime > 0` has its `currentTime`
decreased by exactly 1, a paused timer or one at `currentTime = 0` is
left unchanged; and (for any pattern of store-update outcomes) no
timer's `currentTime` becomes negative if none was negative before. -/
theorem updateTimers_tick_correct (ts : List Timer) (u : Timer → Bool)
    (hnn : ∀ t ∈ ts, 0 ≤ t.currentTime) :
    (∀ p ∈ ts.zip (updateTimers (fun _ => true) ts).1,
        (¬ p.1.isPaused ∧ 0 < p.1.currentTime →
            p.2.currentTime = p.1.currentTime - 1)
      ∧ (p.1.isPaused ∨ p.1.currentTime = 0 →
            p.2.currentTime = p.1.currentTime))
    ∧ ∀ t' ∈ (updateTimers u ts).1, 0 ≤ t'.currentTime := by
  constructor
  · intro p hp
    rw [updateTimers_fst_all_ok] at hp
    have h2 := zip_map_snd tickOne ts p hp
    constructor
    · intro hact
      rw [h2]
      unfold tickOne
      rw [if_pos hact]
    · intro hidle
      have hn : ¬ (¬ p.1.isPaused ∧ 0 < p.1.currentTime) := by
        rcases hidle with h | h
        · exact fun hc => hc.1 h
        · exact fun hc => absurd hc.2 (by omega)
      rw [h2]
      unfold tickOne
      rw [if_neg hn]
  · intro t' ht'
    obtain ⟨a, ha, hp⟩ := updateTimers_mem u ts t' ht'
    have hnna := hnn a ha
    rcases hp with rfl | ⟨hpos, rfl⟩
    · exact hnna
    · show 0 ≤ a.currentTime - 1
      omega

/-- C1 witness: the theorem applied to a one-timer store holding an
unpaused timer at `currentTime = 3`: the tick takes it to 2, which is
still non-negative. -/
theorem updateTimers_tick_correct_witness :
    (Timer.mk 1 "s1" 5 2 false).currentTime
        = (Timer.mk 1 "s1" 5 3 false).currentTime - 1
    ∧ 0 ≤ (Timer.mk 1 "s1" 5 2 false).currentTime := by
  have h := updateTimers_tick_correct [Timer.mk 1 "s1" 5 3 false]
    (fun _ => true) (by decide)
  refine ⟨?_, ?_⟩
  · have hm : (Timer.mk 1 "s1" 5 3 false, Timer.mk 1 "s1" 5 2 false)
        ∈ ([Timer.mk 1 "s1" 5 3 false].zip
            (updateTimers (fun _ => true) [Timer.mk 1 "s1" 5 3 false]).1) := by
      decide
    exact (h.1 _ hm).1 (by decide)
  · exact h.2 (Timer.mk 1 "s1" 5 2 false) (by decide)

/-! ## Claim C2 -/

theorem storeSave_dbInv {db : List Timer} {t : Timer}
    (hdb : dbInv db) (ht : timerInv t) : dbInv (storeSave db t) := by
  intro u hu
  unfold storeSave at hu
  split at hu
  · rw [List.mem_map] at hu
    obtain ⟨a, ha, rfl⟩ := hu
    split
    · exact ht
    · exact hdb a ha
  · rw [List.mem_append] at hu
    rcases hu with hu | hu
    · exact hdb u hu
    · rw [List.mem_singleton] at hu; subst hu; exact ht

theorem findByID_mem {db : List Timer} {id : Nat} {t : Timer}
    (h : findByID db id = some t) : t ∈ db :=
  List.mem_of_find?_eq_some h

/-- C2: the invariant `0 ≤ currentTime ≤ maxTime` holds for every
stored timer after each of create, pause, resume, modify and tick,
under the spec's preconditions (`maxTime ≥ 0` for create and modify),
whatever the outcome of the store write. -/
theorem timer_invariant_preserved (db : List Timer) (cache : Cache)
    (s : String) (m m' : Int) (id : Nat) (ok : Bool) (u : Timer → Bool)
    (hdb : dbInv db) (hm : 0 ≤ m) (hm' : 0 ≤ m') :
    dbInv (CreateTimer ok db cache s m).1.1
    ∧ dbInv (PauseTimer ok db cache id).1.1
    ∧ dbInv (ResumeTimer ok db cache id).1.1
    ∧ dbInv (ModifyTimer ok db cache id m').1.1
    ∧ dbInv (updateTimers u db).1 := by
  refine ⟨?_, ?_, ?_, ?_, ?_⟩
  · unfold CreateTimer
    cases ok with
    | false => exact hdb
    | true =>
      intro t ht
      rcases List.mem_append.mp ht with ht | ht
      · exact hdb t ht
      · rw [List.mem_singleton] at ht; subst ht
        exact ⟨hm, le_refl m⟩
  · unfold PauseTimer
    cases hfind : findByID db id with
    | none => exact hdb
    | some t =>
      cases ok with
      | false => exact hdb
      | true =>
        have ht := hdb t (findByID_mem hfind)
        exact storeSave_dbInv hdb ⟨ht.1, ht.2⟩
  · unfold ResumeTimer
    cases hfind : findByID db id with
    | none => exact hdb
    | some t =>
      cases ok with
      | false => exact hdb
      | true =>
        have ht := hdb t (findByID_mem hfind)
        exact storeSave_dbInv hdb ⟨ht.1, ht.2⟩
  · unfold ModifyTimer
    cases hfind : findByID db id with
    | none => exact hdb
    | some t =>
      cases ok with
      | false => exact hdb
      | true => exact storeSave_dbInv hdb ⟨hm', le_refl m'⟩
  · intro t' ht'
    obtain ⟨a, ha, hp⟩ := updateTimers_mem u db t' ht'
    have hinv := hdb a ha
    rcases hp with rfl | ⟨hpos, rfl⟩
    · exact hinv
    · have h1 := hinv.1
      have h2 := hinv.2
      refine ⟨?_, ?_⟩
      · show 0 ≤ a.currentTime - 1
        omega
      · show a.currentTime - 1 ≤ a.maxTime
        omega

/-- C2 witness: the invariant after each operation on a concrete
one-timer store. -/
theorem timer_invariant_preserved_witness :
    dbInv (CreateTimer true [Timer.mk 1 "s1" 60 30 false] [] "s2" 10).1.1
    ∧ dbInv (PauseTimer true [Timer.mk 1 "s1" 60 30 false] [] 1).1.1
    ∧ dbInv (ModifyTimer true [Timer.mk 1 "s1" 60 30 false] [] 1 90).1.1
    ∧ dbInv (updateTimers (fun _ => true) [Timer.mk 1 "s1" 60 30 false]).1 := by
  have h := timer_invariant_preserved [Timer.mk 1 "s1" 60 30 false] []
    "s2" 10 90 1 true (fun _ => true) (by decide) (by decide) (by decide)
  exact ⟨h.1, h.2.1, h.2.2.2.1, h.2.2.2.2⟩

/-! ## Claim C3 -/

/-- C3 counterexample: with an owner channel (handle 1) registered for
session `"s1"`, registering a second channel (handle 2) for `"s1"`
leaves a registry holding only the new channel: the prior entry is
gone and fan-out for `"s1"` reaches only handle 2, refuting the claim
that both channels are retained as separate entries. -/
theorem registerConn_replace_counterexample :
    registerConn [Entry.mk "s1" Role.owner 1] (Entry.mk "s1" Role.owner 2)
        = [Entry.mk "s1" Role.owner 2]
    ∧ Entry.mk "s1" Role.owner 1
        ∉ registerConn [Entry.mk "s1" Role.owner 1] (Entry.mk "s1" Role.owner 2)
    ∧ broadcastMessage
        (registerConn [Entry.mk "s1" Role.owner 1] (Entry.mk "s1" Role.owner 2))
        "s1" false = [2] := by
  refine ⟨by decide, by decide, by decide⟩

/-- C3 amended: registering a channel for a `sessionID` that already
has one overwrites the single map slot for that key: the registry
keeps its size, contains the new entry, and the new entry is the only
entry under that `sessionID` (so subsequent fan-out iterates only the
newest channel per session). -/
theorem registerConn_overwrites_slot (reg : Registry) (e : Entry)
    (h : ∃ x ∈ reg, x.sessionID = e.sessionID) :
    (registerConn reg e).length = reg.length
    ∧ e ∈ registerConn reg e
    ∧ ∀ x ∈ registerConn reg e, x.sessionID = e.sessionID → x = e := by
  obtain ⟨x₀, hx₀, hs₀⟩ := h
  have hany : reg.any (fun x => x.sessionID = e.sessionID) = true := by
    rw [List.any_eq_true]
    exact ⟨x₀, hx₀, decide_eq_true hs₀⟩
  unfold registerConn
  rw [if_pos hany]
  refine ⟨by simp, ?_, ?_⟩
  · rw [List.mem_map]
    exact ⟨x₀, hx₀, by rw [if_pos hs₀]⟩
  · intro x hx hxs
    rcases List.mem_map.mp hx with ⟨a, ha, rfl⟩
    by_cases has : a.sessionID = e.sessionID
    · rw [if_pos has]
    · rw [if_neg has] at hxs ⊢
      exact absurd hxs has

/-- C3 amended witness: the amended statement at a concrete registry
where session `"s1"` already has a channel. -/
theorem registerConn_overwrites_slot_witness :
    (registerConn [Entry.mk "s1" Role.owner 1]
        (Entry.mk "s1" Role.supervisor 2)).length
      = [Entry.mk "s1" Role.owner 1].length
    ∧ Entry.mk "s1" Role.supervisor 2
        ∈ registerConn [Entry.mk "s1" Role.owner 1]
            (Entry.mk "s1" Role.supervisor 2) := by
  have h := registerConn_overwrites_slot [Entry.mk "s1" Role.owner 1]
    (Entry.mk "s1" Role.supervisor 2)
    ⟨Entry.mk "s1" Role.owner 1, by decide, rfl⟩
  exact ⟨h.1, h.2.1⟩

/-! ## Claim C4 -/

/-- C4 counterexample: the tick engine's `BroadcastTimerUpdate` (which
passes `isGameMaster = true` into `broadcastMessage`) delivers the
`TIMER_UPDATE` for a timer of session `"s1"` to an owner channel
registered for the different session `"s2"`, refuting the claim that
such a delivery never happens regardless of the triggering role. -/
theorem broadcastUpdate_cross_session_counterexample :
    BroadcastTimerUpdate [Entry.mk "s2" Role.owner 2]
        (Timer.mk 1 "s1" 60 59 false) = [2]
    ∧ (Entry.mk "s2" Role.owner 2).role = Role.owner
    ∧ (Entry.mk "s2" Role.owner 2).sessionID
        ≠ (Timer.mk 1 "s1" 60 59 false).sessionID := by
  refine ⟨by decide, rfl, by decide⟩

/-- C4 amended: `TIMER_UPDATE` delivery is determined by the
`isGameMaster` flag of the triggering caller and not by the entries'
roles: a game-master-triggered broadcast (including every tick-engine
`BroadcastTimerUpdate`) goes to every registered connection, and a
customer-triggered broadcast goes exactly to the connections whose
registry `sessionID` equals the timer's. -/
theorem broadcastMessage_trigger_semantics (reg : Registry) (t : Timer)
    (s : String) :
    broadcastMessage reg s true = reg.map (·.conn)
    ∧ broadcastMessage reg s false
        = (reg.filter (fun e => e.sessionID == s)).map (·.conn)
    ∧ BroadcastTimerUpdate reg t = reg.map (·.conn) := by
  have h1 : ∀ s' : String, broadcastMessage reg s' true = reg.map (·.conn) := by
    intro s'
    simp [broadcastMessage]
  refine ⟨h1 s, ?_, h1 t.sessionID⟩
  simp [broadcastMessage]

/-! ## Claim C5 -/

/-- C5 counterexample: once the stop channel is closed, a second
`StopTimerUpdates` call executes `close` on an already-closed channel,
which panics — refuting the claim that the second call is a safe
no-op. -/
theorem stopTimerUpdates_second_call_counterexample :
    StopTimerUpdates ChanState.closed = Except.error () := rfl

/-- C5 amended: the stop signal is one-shot, not idempotent: the first
`StopTimerUpdates` call closes the stop channel, and a second call
panics (Go `close` of a closed channel). -/
theorem stopTimerUpdates_one_shot :
    StopTimerUpdates ChanState.opened = Except.ok ChanState.closed
    ∧ StopTimerUpdates ChanState.closed = Except.error () := ⟨rfl, rfl⟩

/-! ## Claim C6 -/

theorem find?_filter_ne (c : Cache) (k k' : String) (hne : k ≠ k') :
    List.find? (fun e => e.1 = k) (List.filter (fun e => e.1 ≠ k') c)
      = List.find? (fun e => e.1 = k) c := by
  induction c with
  | nil => rfl
  | cons e c ih =>
    by_cases he' : e.1 = k'
    · have hek : ¬ (e.1 = k) := fun h => hne (h ▸ he')
      rw [List.filter_cons, if_neg (by simp [he'])]
      rw [ih, List.find?_cons_of_neg]
      simpa using hek
    · by_cases hek : e.1 = k
      · rw [List.filter_cons, if_pos (by simpa using he')]
        rw [List.find?_cons_of_pos _ (by simpa using hek),
          List.find?_cons_of_pos _ (by simpa using hek)]
      · rw [List.filter_cons, if_pos (by simpa using he')]
        rw [List.find?_cons_of_neg _ (by simpa using hek),
          List.find?_cons_of_neg _ (by simpa using hek)]
        exact ih

theorem cacheGet_cacheDel_ne (c : Cache) (k k' : String) (hne : k ≠ k') :
    cacheGet (cacheDel c k') k = cacheGet c k := by
  unfold cacheGet cacheDel
  rw [find?_filter_ne c k k' hne]

/-- C6 counterexample: stopping timer id 7 of session `"s1"` deletes
cache key `"timer:7"`, not the write path's key `"timer:s1"`, so the
snapshot stored for the timer survives the stop — refuting the claim
that stop invalidates the `"timer:" + sessionID` entry. -/
theorem stopTimer_cache_key_counterexample :
    stopDelKey (Timer.mk 7 "s1" 10 10 false).id
        ≠ persistKey (Timer.mk 7 "s1" 10 10 false)
    ∧ cacheGet
        (StopTimer true [Timer.mk 7 "s1" 10 10 false]
          (persistTimer [] (Timer.mk 7 "s1" 10 10 false)) 7).1.2
        (persistKey (Timer.mk 7 "s1" 10 10 false))
      = some (Timer.mk 7 "s1" 10 10 false) := by
  refine ⟨by decide, by decide⟩

/-- C6 amended: for an existing timer id, stop removes the durable row
and deletes the cache key `"timer:" + decimal(id)`; since the write
path keys snapshots by `"timer:" + sessionID`, the stored snapshot is
untouched whenever those keys differ. -/
theorem stopTimer_removes_row_deletes_id_key (db : List Timer) (cache : Cache)
    (id : Nat) (t : Timer) (hfind : findByID db id = some t)
    (hk : persistKey t ≠ stopDelKey id) :
    findByID (StopTimer true db cache id).1.1 id = none
    ∧ (StopTimer true db cache id).1.2 = cacheDel cache (stopDelKey id)
    ∧ cacheGet (StopTimer true db cache id).1.2 (persistKey t)
        = cacheGet cache (persistKey t) := by
  refine ⟨?_, rfl, ?_⟩
  · show findByID (storeDeleteRow db id) id = none
    unfold findByID storeDeleteRow
    apply List.find?_eq_none.mpr
    intro x hx
    rcases List.mem_filter.mp hx with ⟨_, hxid⟩
    simp at hxid ⊢
    exact hxid
  · exact cacheGet_cacheDel_ne cache (persistKey t) (stopDelKey id) hk

/-- C6 amended witness: the amended statement at a concrete store and
cache holding timer id 9 of session `"game4"`. -/
theorem stopTimer_removes_row_deletes_id_key_witness :
    findByID (StopTimer true [Timer.mk 9 "game4" 20 20 false]
        (persistTimer [] (Timer.mk 9 "game4" 20 20 false)) 9).1.1 9 = none
    ∧ cacheGet (StopTimer true [Timer.mk 9 "game4" 20 20 false]
          (persistTimer [] (Timer.mk 9 "game4" 20 20 false)) 9).1.2
        (persistKey (Timer.mk 9 "game4" 20 20 false))
      = cacheGet (persistTimer [] (Timer.mk 9 "game4" 20 20 false))
          (persistKey (Timer.mk 9 "game4" 20 20 false)) := by
  have h := stopTimer_removes_row_deletes_id_key
    [Timer.mk 9 "game4" 20 20 false]
    (persistTimer [] (Timer.mk 9 "game4" 20 20 false)) 9
    (Timer.mk 9 "game4" 20 20 false) (by decide) (by decide)
  exact ⟨h.1, h.2.2⟩

/-! ## Claim C7 -/

/-- C7 counterexample: one tick over a single unpaused timer at
`currentTime = 60` (with the store update succeeding) emits exactly
two effects — the durable store update and the broadcast — with no
snapshot-cache refresh between or around them, refuting the claim that
each decremented timer gets all three effects. -/
theorem updateTimers_no_cache_refresh_counterexample :
    (updateTimers (fun _ => true) [Timer.mk 1 "s1" 60 60 false]).2
      = [Effect.storeUpd (Timer.mk 1 "s1" 60 59 false),
         Effect.bcastUpdate (Timer.mk 1 "s1" 60 59 false)] := by decide

/-- C7 amended: for every timer it decrements (with store updates
succeeding), each tick performs exactly two effects in order —
persisting the decremented timer via the durable store update, then
calling the broadcaster — and never refreshes the snapshot cache. -/
theorem updateTimers_effect_trace (ts : List Timer) :
    (updateTimers (fun _ => true) ts).2
      = (ts.filter (fun t => decide (¬ t.isPaused ∧ 0 < t.currentTime))).flatMap
          (fun t => [Effect.storeUpd (tickOne t), Effect.bcastUpdate (tickOne t)]) := by
  induction ts with
  | nil => rfl
  | cons t ts ih =>
    by_cases h : ¬ t.isPaused ∧ 0 < t.currentTime
    · rw [updateTimers_cons, if_pos h,
        if_pos (show (fun _ : Timer => true)
          { t with currentTime := t.currentTime - 1 } = true from rfl)]
      show Effect.storeUpd _ :: Effect.bcastUpdate _
          :: (updateTimers (fun _ => true) ts).2 = _
      rw [List.filter_cons, if_pos (decide_eq_true h), List.flatMap_cons, ih]
      show _ :: _ :: _
          = Effect.storeUpd (tickOne t) :: Effect.bcastUpdate (tickOne t) :: _
      unfold tickOne
      rw [if_pos h]
      rfl
    · rw [updateTimers_cons, if_neg h]
      show (updateTimers (fun _ => true) ts).2 = _
      rw [List.filter_cons, if_neg (by simpa using h)]
      exact ih

/-! ## Claim C8 -/

/-- C8 counterexample: a supervisor channel is registered, yet a
successful stop invoked over a customer channel
(`isGameMaster = false`) delivers the `TIMER_STOP` message to nobody —
refuting the claim that every supervisor channel receives it
independently of the invoking role. -/
theorem broadcastStop_supervisor_missed_counterexample :
    broadcastTimerStop [Entry.mk "s1" Role.supervisor 1] 7 false = []
    ∧ (Entry.mk "s1" Role.supervisor 1).role = Role.supervisor :=
  ⟨by decide, rfl⟩

/-- C8 amended: `TIMER_STOP` fan-out uses the empty session id and the
invoker's `isGameMaster` flag: a stop invoked over a game-master
channel is delivered to every registered connection (whatever its
role), and a stop invoked over a customer channel is delivered only to
connections registered under the empty `sessionID`; entry roles are
never consulted. -/
theorem broadcastTimerStop_trigger_semantics (reg : Registry) (id : Nat) :
    broadcastTimerStop reg id true = reg.map (·.conn)
    ∧ broadcastTimerStop reg id false
        = (reg.filter (fun e => e.sessionID == "")).map (·.conn) := by
  constructor
  · simp [broadcastTimerStop, broadcastMessage]
  · simp [broadcastTimerStop, broadcastMessage]

/-! ## Claim C9 -/

theorem restoreOne_fail (get : String → Except Unit String)
    (unmarshal : String → Except Unit Timer) (updOk : Timer → Bool) (k : String)
    (hk : get k = Except.error ()
      ∨ (∃ s, get k = Except.ok s ∧ unmarshal s = Except.error ())
      ∨ (∃ s t, get k = Except.ok s ∧ unmarshal s = Except.ok t ∧ updOk t = false)) :
    ∀ db, restoreOne get unmarshal updOk db k = db := by
  intro db
  rcases hk with h | ⟨s, hg, hu⟩ | ⟨s, t, hg, hu, hf⟩
  · simp [restoreOne, h]
  · simp [restoreOne, hg, hu]
  · simp [restoreOne, hg, hu, hf]

theorem RestoreTimers_attempts (get : String → Except Unit String)
    (unmarshal : String → Except Unit Timer) (updOk : Timer → Bool) :
    ∀ keys db, (RestoreTimers get unmarshal updOk db keys).1.2 = keys
      ∧ (RestoreTimers get unmarshal updOk db keys).2 = Except.ok () := by
  intro keys
  induction keys with
  | nil => intro db; exact ⟨rfl, rfl⟩
  | cons k ks ih =>
    intro db
    refine ⟨?_, (ih _).2⟩
    show k :: (RestoreTimers get unmarshal updOk
      (restoreOne get unmarshal updOk db k) ks).1.2 = k :: ks
    rw [(ih _).1]

theorem RestoreTimers_skip (get : String → Except Unit String)
    (unmarshal : String → Except Unit Timer) (updOk : Timer → Bool) (k : String)
    (hid : ∀ db, restoreOne get unmarshal updOk db k = db) :
    ∀ ks₁ ks₂ db,
      (RestoreTimers get unmarshal updOk db (ks₁ ++ k :: ks₂)).1.1
        = (RestoreTimers get unmarshal updOk db (ks₁ ++ ks₂)).1.1 := by
  intro ks₁
  induction ks₁ with
  | nil =>
    intro ks₂ db
    simp only [List.nil_append]
    show (RestoreTimers get unmarshal updOk
      (restoreOne get unmarshal updOk db k) ks₂).1.1 = _
    rw [hid db]
  | cons k₁ ks₁ ih =>
    intro ks₂ db
    show (RestoreTimers get unmarshal updOk
        (restoreOne get unmarshal updOk db k₁) (ks₁ ++ k :: ks₂)).1.1
      = (RestoreTimers get unmarshal updOk
          (restoreOne get unmarshal updOk db k₁) (ks₁ ++ ks₂)).1.1
    exact ih ks₂ _

/-- C9: `RestoreTimers` attempts every snapshot key found (in order)
and returns without error; a key whose fetch, deserialize or
store-write fails is skipped without affecting the store effect of the
remaining keys: the run equals the run over the other keys alone. -/
theorem restoreTimers_resilient (get : String → Except Unit String)
    (unmarshal : String → Except Unit Timer) (updOk : Timer → Bool)
    (db : List Timer) (ks₁ ks₂ : List String) (k : String)
    (hk : get k = Except.error ()
      ∨ (∃ s, get k = Except.ok s ∧ unmarshal s = Except.error ())
      ∨ (∃ s t, get k = Except.ok s ∧ unmarshal s = Except.ok t ∧ updOk t = false)) :
    (RestoreTimers get unmarshal updOk db (ks₁ ++ k :: ks₂)).1.2 = ks₁ ++ k :: ks₂
    ∧ (RestoreTimers get unmarshal updOk db (ks₁ ++ k :: ks₂)).2 = Except.ok ()
    ∧ (RestoreTimers get unmarshal updOk db (ks₁ ++ k :: ks₂)).1.1
        = (RestoreTimers get unmarshal updOk db (ks₁ ++ ks₂)).1.1 :=
  ⟨(RestoreTimers_attempts get unmarshal updOk (ks₁ ++ k :: ks₂) db).1,
   (RestoreTimers_attempts get unmarshal updOk (ks₁ ++ k :: ks₂) db).2,
   RestoreTimers_skip get unmarshal updOk k
     (restoreOne_fail get unmarshal updOk k hk) ks₁ ks₂ db⟩

/-- C9 witness: a concrete restore run over three keys whose middle
fetch fails: the run returns `ok` and its store effect equals the run
over the two good keys. -/
theorem restoreTimers_resilient_witness :
    (RestoreTimers restoreGetW restoreUnmarshalW (fun _ => true) []
        ["timer:a", "timer:bad", "timer:b"]).2 = Except.ok ()
    ∧ (RestoreTimers restoreGetW restoreUnmarshalW (fun _ => true) []
          ["timer:a", "timer:bad", "timer:b"]).1.1
        = (RestoreTimers restoreGetW restoreUnmarshalW (fun _ => true) []
            ["timer:a", "timer:b"]).1.1 := by
  have h := restoreTimers_resilient restoreGetW restoreUnmarshalW (fun _ => true)
    [] ["timer:a"] ["timer:b"] "timer:bad" (Or.inl rfl)
  exact ⟨h.2.1, h.2.2⟩

/-! ## Claim C10 -/

/-- C10: `CreateTimer` validates nothing: for every session id
(including the empty string) and every `maxTime` (including negative
values) it fails exactly when the durable store create fails, and
otherwise returns a timer with `currentTime = maxTime` and
`isPaused = false` — so a negative `maxTime` yields a timer with
negative `currentTime`. -/
theorem createTimer_no_validation (db : List Timer) (cache : Cache)
    (s : String) (m : Int) (ok : Bool) :
    (CreateTimer ok db cache s m).2
      = if ok then Except.ok (Timer.mk (freshId db) s m m false)
        else Except.error () := by
  cases ok <;> rfl

end TimerMS
